import Mathlib

/-!
Verification of the stack-effect algebra, compiler and parser of the
`tails` Forth-like engine (src/src/word.hh, compiler.hh, tails.cc,
test.cc), shallowly embedded in Lean.

Machine integers are modelled as `Int` with the C++ conversions made
explicit: `toU8` is conversion to `uint8_t`, `toI8` to `int8_t`,
`toU16` to `uint16_t`.
-/

namespace Tails

/-- C++ conversion of an `int` value to `uint8_t` (modular, lands in [0,256)). -/
def toU8 (x : Int) : Int := x % 256

/-- C++ conversion of an `int` value to `int8_t` (modular, lands in [-128,128)). -/
def toI8 (x : Int) : Int := (x + 128) % 256 - 128

/-- C++ conversion of an `int` value to `uint16_t` (modular, lands in [0,65536)). -/
def toU16 (x : Int) : Int := x % 65536

/-- `class StackEffect` (word.hh:15-63): fields `_in : uint8_t`,
`_net : int8_t`, `_max : uint16_t`, modelled as the `Int` values they hold. -/
@[ext]
structure StackEffect where
  sIn : Int
  sNet : Int
  sMax : Int
deriving DecidableEq, Repr

/-- The default constructor `StackEffect()` (word.hh:17-18). -/
def StackEffect.mk0 : StackEffect := ⟨0, 0, 0⟩

/-- The constructor `StackEffect(uint8_t input, uint8_t output)` (word.hh:20-21):
`_in(input), _net(output - input), _max(std::max(input, output))`.
The arguments are converted to `uint8_t` at the call boundary. -/
def StackEffect.mk2 (input output : Int) : StackEffect :=
  ⟨toU8 input, toI8 (toU8 output - toU8 input), toU16 (max (toU8 input) (toU8 output))⟩

/-- The constructor `StackEffect(uint8_t input, uint8_t output, uint16_t max)`
(word.hh:23-24): `_in(input), _net(output - input), _max(max)`. -/
def StackEffect.mk3 (input output mx : Int) : StackEffect :=
  ⟨toU8 input, toI8 (toU8 output - toU8 input), toU16 mx⟩

/-- `input()` accessor (word.hh:26). -/
def StackEffect.input (e : StackEffect) : Int := e.sIn

/-- `output()` accessor (word.hh:27). -/
def StackEffect.output (e : StackEffect) : Int := e.sIn + e.sNet

/-- `net()` accessor (word.hh:28). -/
def StackEffect.net (e : StackEffect) : Int := e.sNet

/-- Local `in` of `StackEffect::then` (word.hh:40):
`std::max(this->input(), other.input() - this->net())`. -/
def thenIn (a b : StackEffect) : Int := max a.input (b.input - a.net)

/-- Local `net` of `StackEffect::then` (word.hh:41): `this->net() + other.net()`. -/
def thenNet (a b : StackEffect) : Int := a.net + b.net

/-- Local `max` of `StackEffect::then` (word.hh:42-43):
`in + std::max(this->max() - this->input(), this->net() + other.max() - other.input())`. -/
def thenMax (a b : StackEffect) : Int :=
  thenIn a b + max (a.sMax - a.input) (a.net + b.sMax - b.input)

/-- The `result` local of `StackEffect::then` (word.hh:44):
`StackEffect result {uint8_t(in), uint8_t(in + net), uint16_t(max)}`. -/
def thenResult (a b : StackEffect) : StackEffect :=
  StackEffect.mk3 (thenIn a b) (thenIn a b + thenNet a b) (thenMax a b)

/-- `StackEffect::then` (word.hh:39-48).  The `throw std::runtime_error
("StackEffect overflow")` on a failed read-back check is modelled as `none`. -/
def StackEffect.thenEff (a b : StackEffect) : Option StackEffect :=
  if (thenResult a b).sIn = thenIn a b ∧ (thenResult a b).sNet = thenNet a b ∧
      (thenResult a b).sMax = thenMax a b
  then some (thenResult a b) else none

/-- `StackEffect::canMerge` (word.hh:51). -/
def StackEffect.canMerge (a b : StackEffect) : Prop := a.net = b.net

instance : DecidablePred fun p : StackEffect × StackEffect => p.1.canMerge p.2 :=
  fun p => inferInstanceAs (Decidable (p.1.net = p.2.net))

instance (a b : StackEffect) : Decidable (a.canMerge b) :=
  inferInstanceAs (Decidable (a.net = b.net))

/-- `StackEffect::merge` (word.hh:54-57):
`(this->input() >= other.input()) ? *this : other`. -/
def StackEffect.merge (a b : StackEffect) : StackEffect :=
  if a.input ≥ b.input then a else b

/-- Representation well-formedness: the fields hold values actually
representable in `uint8_t` / `int8_t` / `uint16_t`. -/
def StackEffect.WF (e : StackEffect) : Prop :=
  0 ≤ e.sIn ∧ e.sIn < 256 ∧ -128 ≤ e.sNet ∧ e.sNet < 128 ∧ 0 ≤ e.sMax ∧ e.sMax < 65536

instance (e : StackEffect) : Decidable e.WF :=
  inferInstanceAs (Decidable (_ ∧ _ ∧ _ ∧ _ ∧ _ ∧ _))

/-- The spec invariant `peak ≥ in` and `peak ≥ in + net` (spec §3). -/
def StackEffect.Inv (e : StackEffect) : Prop :=
  e.sIn ≤ e.sMax ∧ e.sIn + e.sNet ≤ e.sMax

instance (e : StackEffect) : Decidable e.Inv :=
  inferInstanceAs (Decidable (_ ∧ _))

/-- The spec's formula for the input of `compose(a, b)` (spec §4.1):
`in = max(i_a, i_b − n_a)`. -/
def specComposeIn (a b : StackEffect) : Int := max a.input (b.input - a.net)

/-- The spec's formula for the net of `compose(a, b)` (spec §4.1):
`net = n_a + n_b`. -/
def specComposeNet (a b : StackEffect) : Int := a.net + b.net

/-- The spec's formula for the peak of `compose(a, b)` (spec §4.1):
`peak = in + max(p_a − i_a, n_a + p_b − i_b)`. -/
def specComposePeak (a b : StackEffect) : Int :=
  specComposeIn a b + max (a.sMax - a.input) (a.net + b.sMax - b.input)

/-- The condition under which some component of the mathematically computed
result of `compose(a, b)` is outside its representable range
(`in` in [0,255], `net` in [-128,127], `peak` in [0,65535]). -/
def composeOverflows (a b : StackEffect) : Prop :=
  255 < specComposeIn a b ∨ specComposeNet a b < -128 ∨ 127 < specComposeNet a b ∨
    65535 < specComposePeak a b

instance (a b : StackEffect) : Decidable (composeOverflows a b) :=
  inferInstanceAs (Decidable (_ ∨ _ ∨ _ ∨ _))

/-- The spec's words for the peak of `merge(a, b)` (spec §4.1), read as
"the maximum of the two peaks": `max p_a p_b`. -/
def specMergePeak (a b : StackEffect) : Int := max a.sMax b.sMax

-- ### Helper lemmas about the machine conversions

theorem toU8_eq_self {x : Int} : toU8 x = x ↔ 0 ≤ x ∧ x < 256 := by
  unfold toU8; omega

theorem toU16_eq_self {x : Int} : toU16 x = x ↔ 0 ≤ x ∧ x < 65536 := by
  unfold toU16; omega

/-- Reading back `_net` after the narrowing conversions of the three-argument
constructor recovers `n` exactly when `n` fits in `int8_t`, whatever `i` is. -/
theorem toI8_readback (i n : Int) :
    toI8 (toU8 (i + n) - toU8 i) = n ↔ -128 ≤ n ∧ n < 128 := by
  unfold toI8 toU8; omega

/-- Characterization of a successful `StackEffect::then`: the result's fields
are exactly the mathematically computed `in`, `net` and `max`. -/
theorem thenEff_spec {a b r : StackEffect} (h : a.thenEff b = some r) :
    r.sIn = specComposeIn a b ∧ r.sNet = specComposeNet a b ∧
      r.sMax = specComposePeak a b := by
  unfold StackEffect.thenEff at h
  split at h
  · next hc =>
      obtain ⟨h1, h2, h3⟩ := hc
      cases h
      exact ⟨h1, h2, h3⟩
  · cases h

/-- `StackEffect::then` succeeds (returns rather than throws) exactly when all
three read-back checks pass. -/
theorem thenEff_eq_some_iff (a b : StackEffect) :
    (∃ r, a.thenEff b = some r) ↔
      ((thenResult a b).sIn = thenIn a b ∧ (thenResult a b).sNet = thenNet a b ∧
        (thenResult a b).sMax = thenMax a b) := by
  unfold StackEffect.thenEff
  split
  · next hc => exact ⟨fun _ => hc, fun _ => ⟨thenResult a b, rfl⟩⟩
  · next hc =>
      constructor
      · rintro ⟨r, hr⟩
        cases hr
      · intro h
        exact absurd h hc


/-- `StackEffect::then` throws (is `none`) exactly when a component of the
mathematically computed result is outside its representable range. -/
theorem thenEff_none_iff {a : StackEffect} (b : StackEffect) (ha : a.WF) :
    a.thenEff b = none ↔ composeOverflows a b := by
  have hcond : a.thenEff b = none ↔
      ¬((thenResult a b).sIn = thenIn a b ∧ (thenResult a b).sNet = thenNet a b ∧
        (thenResult a b).sMax = thenMax a b) := by
    unfold StackEffect.thenEff
    split
    · next hc => simp [hc]
    · next hc => simp [hc]
  rw [hcond]
  obtain ⟨w1, w2, w3, w4, w5, w6⟩ := ha
  simp only [thenResult, StackEffect.mk3]
  rw [toU8_eq_self, toI8_readback, toU16_eq_self]
  unfold composeOverflows specComposePeak specComposeNet specComposeIn
    thenIn thenNet thenMax thenIn StackEffect.input StackEffect.net
  omega

/-- The spec invariant `peak ≥ max(in, in+net)` is preserved by a successful
`StackEffect::then`. -/
theorem thenEff_preserves_inv {a b r : StackEffect} (hia : a.Inv) (hib : b.Inv)
    (h : a.thenEff b = some r) : r.Inv := by
  obtain ⟨h1, h2, h3⟩ := thenEff_spec h
  obtain ⟨ha1, ha2⟩ := hia
  obtain ⟨hb1, hb2⟩ := hib
  unfold specComposeIn StackEffect.input StackEffect.net at h1
  unfold specComposeNet StackEffect.net at h2
  unfold specComposePeak specComposeIn StackEffect.input StackEffect.net at h3
  unfold StackEffect.Inv
  omega

set_option maxHeartbeats 2000000 in
/-- Sequential composition of stack effects is associative on the
mathematically computed components. -/
theorem thenEff_assoc_fields {a b c ab bc r1 r2 : StackEffect}
    (h1 : a.thenEff b = some ab) (h2 : ab.thenEff c = some r1)
    (h3 : b.thenEff c = some bc) (h4 : a.thenEff bc = some r2) : r1 = r2 := by
  obtain ⟨i1, n1, m1⟩ := thenEff_spec h1
  obtain ⟨i2, n2, m2⟩ := thenEff_spec h2
  obtain ⟨i3, n3, m3⟩ := thenEff_spec h3
  obtain ⟨i4, n4, m4⟩ := thenEff_spec h4
  unfold specComposeIn StackEffect.input StackEffect.net at i1 i2 i3 i4
  unfold specComposeNet StackEffect.net at n1 n2 n3 n4
  unfold specComposePeak specComposeIn StackEffect.input StackEffect.net at m1 m2 m3 m4
  ext <;> omega

-- ### Word construction (tails.cc)

/-- One instruction cell of the tails.cc API revision: `union Instruction`
holds either a native op (a function pointer, identified here by its name),
a pointer to another word's instruction array, or an `int` parameter. -/
inductive Instr where
  | native (op : String)
  | wordPtr (id : Nat)
  | intParam (n : Int)
deriving DecidableEq, Repr

/-- `struct WordRef` (tails.cc:54-77): a short run of instruction cells.
`WordRef(const Word&)` yields `[native op]` for a native word or
`[CALL, ptr]` for an interpreted one; `WordRef(const Word&, int)` yields
`[native op, param]`; `WordRef(int)` yields `[LITERAL, param]`.
`_count` is the length of `instrs`. -/
structure TWordRef where
  instrs : List Instr
deriving DecidableEq, Repr

/-- `WordRef(int i)` = `WordRef{LITERAL, i}` (tails.cc:75-77). -/
def TWordRef.ofInt (i : Int) : TWordRef :=
  ⟨[Instr.native ("LITERAL"), Instr.intParam i]⟩

/-- The interpreted-word constructor `Word::Word(const char*,
std::initializer_list<WordRef>)` (tails.cc:35-51): allocates
`1 + Σ ref._count` cells, copies each ref's cells in order, and stores
`RETURN._native` in the final cell. -/
def interpInstrs (words : List TWordRef) : List Instr :=
  (words.map TWordRef.instrs).flatten ++ [Instr.native ("RETURN")]

-- ### Parser, runtime and verifier for compiled definitions
--
-- The implementations of `Compiler::parse`, `Compiler::finish`,
-- `Compiler::computeEffect` (compiler.cc) and of the execution loop
-- (core_words.cc / instruction.hh) are not part of the sources under
-- verification; per spec sections 4.2-4.4 and 3 they are modelled below.

/-- One cell of a compiled definition: a `LITERAL`, `ZBRANCH`, `BRANCH` or
`RETURN` opcode, or a parameter cell holding a literal value or branch
offset (spec section 3, "Instruction"). -/
inductive Cell where
  | LIT | ZB | BR | RET
  | num (n : Int)
deriving DecidableEq, Repr

/-- Splitting a character list on spaces, accumulating the current token. -/
def splitWS : List Char → List Char → List String
  | [], acc => if acc.isEmpty then [] else [String.mk acc.reverse]
  | c :: cs, acc =>
      if c = ' ' then
        (if acc.isEmpty then splitWS cs [] else String.mk acc.reverse :: splitWS cs [])
      else splitWS cs (c :: acc)

/-- Modelled from the spec: tokenization "splits the input string on
whitespace into tokens" (spec section 4.4); `Compiler::parse` is declared in
compiler.hh:89 but its body (compiler.cc) is not among the sources. -/
def tokenize (s : String) : List String := splitWS s.data []

/-- Value of a decimal digit character. -/
def digitVal (c : Char) : Option Nat :=
  if '0' ≤ c ∧ c ≤ '9' then some (c.toNat - 48) else none

/-- A nonempty all-digit character list read as a natural number. -/
def natOfDigits : List Char → Option Nat
  | [] => none
  | ds => go ds 0
where
  go : List Char → Nat → Option Nat
  | [], acc => some acc
  | d :: ds, acc =>
      match digitVal d with
      | some v => go ds (acc * 10 + v)
      | none => none

/-- Modelled from the spec: recognition of a decimal integer literal token
(spec section 4.4 step 1; floating-point and string literals are not needed
by the programs verified here). -/
def tokInt : String → Option Int
  | t =>
    match t.data with
    | '-' :: rest => (natOfDigits rest).map fun n => -(n : Int)
    | ds => (natOfDigits ds).map fun n => (n : Int)

/-- `fix_branch` (spec section 4.2): patch the parameter cell of the
BRANCH/ZBRANCH at `pos` so that its offset targets the next position to be
written, the offset being measured from the cell after the parameter cell. -/
def fixB (prog : List Cell) (pos : Nat) : List Cell :=
  prog.set (pos + 1) (Cell.num ((prog.length : Int) - ((pos : Int) + 2)))

/-- Modelled from the spec: the token loop of `Compiler::parse`
(spec section 4.4, structured control words; compiler.cc is not among the
sources).  State: emitted cells and the control stack of
`(tag, position)` pairs. -/
def parseToks : List String → List Cell → List (Char × Nat) → Except String (List Cell)
  | [], prog, [] => Except.ok prog
  | [], _, _ :: _ => Except.error ("unbalanced control")
  | t :: ts, prog, cs =>
    match tokInt t with
    | some n => parseToks ts (prog ++ [Cell.LIT, Cell.num n]) cs
    | none =>
      if t = "IF" then
        parseToks ts (prog ++ [Cell.ZB, Cell.num 0]) (('i', prog.length) :: cs)
      else if t = "ELSE" then
        match cs with
        | ('i', pos) :: cs2 =>
            parseToks ts (fixB (prog ++ [Cell.BR, Cell.num 0]) pos)
              (('e', prog.length) :: cs2)
        | _ => Except.error ("unbalanced control")
      else if t = "THEN" then
        match cs with
        | (tag, pos) :: cs2 =>
            if tag = 'i' ∨ tag = 'e' then parseToks ts (fixB prog pos) cs2
            else Except.error ("unbalanced control")
        | [] => Except.error ("unbalanced control")
      else if t = "BEGIN" then
        parseToks ts prog (('b', prog.length) :: cs)
      else if t = "WHILE" then
        match cs with
        | ('b', bpos) :: cs2 =>
            parseToks ts (prog ++ [Cell.ZB, Cell.num 0])
              (('b', bpos) :: ('w', prog.length) :: cs2)
        | _ => Except.error ("unbalanced control")
      else if t = "REPEAT" then
        match cs with
        | ('b', bpos) :: ('w', wpos) :: cs2 =>
            parseToks ts
              (fixB (prog ++ [Cell.BR, Cell.num ((bpos : Int) - ((prog.length : Int) + 2))]) wpos)
              cs2
        | _ => Except.error ("unbalanced control")
      else Except.error ("unknown word " ++ t)

/-- Modelled from the spec: the RETURN cell appended by `Compiler::finish`
(compiler.hh:118-121 doc comment and spec section 4.2; compiler.cc is not
among the sources). -/
def finishProg (prog : List Cell) : List Cell := prog ++ [Cell.RET]

/-- Parse a source string and finish the definition, yielding its cells. -/
def compileSource (s : String) : Except String (List Cell) :=
  (parseToks (tokenize s) [] []).map finishProg

/-- Modelled from the spec: the execution loop over compiled cells
(spec sections 3 and 6; core_words.cc / instruction.hh are not among the
sources).  Literal values are taken as integers.  Returns the stack at
RETURN, top first. -/
def run : Nat → List Cell → Int → List Int → Option (List Int)
  | 0, _, _, _ => none
  | Nat.succ fuel, prog, pc, stack =>
    if pc < 0 then none else
    match prog.get? pc.toNat with
    | some Cell.LIT =>
        match prog.get? (pc.toNat + 1) with
        | some (Cell.num v) => run fuel prog (pc + 2) (v :: stack)
        | _ => none
    | some Cell.ZB =>
        match prog.get? (pc.toNat + 1), stack with
        | some (Cell.num o), v :: rest =>
            run fuel prog (if v = 0 then pc + 2 + o else pc + 2) rest
        | _, _ => none
    | some Cell.BR =>
        match prog.get? (pc.toNat + 1) with
        | some (Cell.num o) => run fuel prog (pc + 2 + o) stack
        | _ => none
    | some Cell.RET => some stack
    | _ => none

/-- Declared effect of LITERAL: `(0,1)` (spec section 6). -/
def seLITERAL : StackEffect := StackEffect.mk2 0 1

/-- Declared effect of ZBRANCH: `(1,0)` (spec section 6). -/
def seZBRANCH : StackEffect := StackEffect.mk2 1 0

/-- Declared effect of BRANCH: `(0,0)` (spec section 6). -/
def seBRANCH : StackEffect := StackEffect.mk2 0 0

/-- Declared effect of RETURN: `(0,0)` (spec section 6). -/
def seRETURN : StackEffect := StackEffect.mk2 0 0

/-- Verifier state (spec section 4.3): the effect known at each opcode
position ("from entry up to just before this instruction") and the final
effect over RETURN-reaching paths. -/
structure VerifState where
  effs : List (Option StackEffect)
  final : Option StackEffect
deriving DecidableEq, Repr

/-- Modelled from the spec: `Compiler::computeEffect` (declared at
compiler.hh:133-137, body in compiler.cc which is not among the sources;
algorithm from spec section 4.3).  Depth-first propagation of the incoming
effect `E` at cell position `pc`; at a revisited position the incoming
effect is merged with the stored one and propagation stops when the merge
changes nothing. -/
def computeEffect (prog : List Cell) : Nat → Int → StackEffect → VerifState →
    Except String VerifState
  | 0, _, _, _ => Except.error ("verifier fuel exhausted")
  | Nat.succ fuel, pc, E, st =>
    if pc < 0 then Except.error ("branch out of range") else
    match st.effs.get? pc.toNat with
    | none => Except.error ("branch out of range")
    | some prev =>
      match (match prev with
             | some E0 =>
               if E0.canMerge E then
                 if E0.merge E = E0 then Except.ok none
                 else Except.ok (some (E0.merge E))
               else Except.error ("unbalanced merge")
             | none => Except.ok (some E) :
             Except String (Option StackEffect)) with
      | Except.error e => Except.error e
      | Except.ok none => Except.ok st
      | Except.ok (some E1) =>
        let st1 : VerifState := ⟨st.effs.set pc.toNat (some E1), st.final⟩
        let i := pc.toNat
        match prog.get? i with
        | some Cell.LIT =>
            match E1.thenEff seLITERAL with
            | some E2 => computeEffect prog fuel ((i : Int) + 2) E2 st1
            | none => Except.error ("overflow")
        | some Cell.ZB =>
            match prog.get? (i + 1) with
            | some (Cell.num o) =>
                match E1.thenEff seZBRANCH with
                | some E2 =>
                    match computeEffect prog fuel ((i : Int) + 2) E2 st1 with
                    | Except.ok st2 => computeEffect prog fuel ((i : Int) + 2 + o) E2 st2
                    | Except.error e => Except.error e
                | none => Except.error ("overflow")
            | _ => Except.error ("branch out of range")
        | some Cell.BR =>
            match prog.get? (i + 1) with
            | some (Cell.num o) =>
                match E1.thenEff seBRANCH with
                | some E2 => computeEffect prog fuel ((i : Int) + 2 + o) E2 st1
                | none => Except.error ("overflow")
            | _ => Except.error ("branch out of range")
        | some Cell.RET =>
            match E1.thenEff seRETURN with
            | some E2 =>
                match st1.final with
                | none => Except.ok ⟨st1.effs, some E2⟩
                | some F =>
                    if F.canMerge E2 then Except.ok ⟨st1.effs, some (F.merge E2)⟩
                    else Except.error ("unbalanced merge")
            | none => Except.error ("overflow")
        | some (Cell.num _) => Except.error ("branch out of range")
        | none => Except.error ("branch out of range")

/-- Modelled from the spec: running the verifier over a finished definition,
starting with `eff[0] = (0,0,0)` (spec section 4.3 step 1). -/
def verify (prog : List Cell) : Except String StackEffect :=
  match computeEffect prog 64 0 ⟨0, 0, 0⟩ ⟨List.replicate prog.length none, none⟩ with
  | Except.ok st =>
      match st.final with
      | some F => Except.ok F
      | none => Except.error ("no effect")
  | Except.error e => Except.error e

-- ### Word equality (word.hh:68-106)

/-- The `Instruction` union member read by `operator==(const Word&, const
Word&)`: the bits of the `native` cell (a function-pointer identity). -/
structure WInstr where
  native : Nat
deriving DecidableEq, Repr

/-- `struct Word` (word.hh:68-102): instruction cell, name, stack effect and
flags. -/
structure Word where
  instr : WInstr
  name : Option String
  effect : StackEffect
  flags : Nat
deriving DecidableEq, Repr

/-- `operator==(const Word &a, const Word &b)` (word.hh:105):
`a._instr.native == b._instr.native`. -/
def wordEq (a b : Word) : Bool := a.instr.native == b.instr.native

-- ### Compiler setters (compiler.hh:75-145)

/-- `SIZE_MAX`, the default value of `Compiler::_maxInputs` (compiler.hh:141). -/
def SIZE_MAX : Nat := 2 ^ 64 - 1

/-- The fields of `class Compiler` (compiler.hh:139-145) read or written by
`setStackEffect` and `setMaxInputs`; `_maxInputs : size_t` defaults to
`SIZE_MAX` and `_effect` to unset. -/
structure Compiler where
  name : String
  maxInputs : Nat
  effect : Option StackEffect
deriving DecidableEq, Repr

/-- `Compiler(std::string name)` (compiler.hh:76) with the field defaults. -/
def Compiler.init (name : String) : Compiler := ⟨name, SIZE_MAX, none⟩

/-- `Compiler::setStackEffect` (compiler.hh:81):
`_effect = f; _maxInputs = f.input();`  (`f.input()` is nonnegative, so the
`int` to `size_t` conversion is `Int.toNat`). -/
def Compiler.setStackEffect (c : Compiler) (f : StackEffect) : Compiler :=
  { c with effect := some f, maxInputs := f.input.toNat }

/-- `Compiler::setMaxInputs` (compiler.hh:86): `_maxInputs = maxInputs;`. -/
def Compiler.setMaxInputs (c : Compiler) (k : Nat) : Compiler :=
  { c with maxInputs := k }

-- ### Claim theorems

/-- Claim C1: for all stack effects `a = (i_a, n_a, p_a)` and
`b = (i_b, n_b, p_b)` for which the composition does not overflow,
`StackEffect::then` returns exactly `in = max(i_a, i_b - n_a)`,
`net = n_a + n_b` and `peak = in + max(p_a - i_a, n_a + p_b - i_b)`. -/
theorem then_returns_spec_components (a b r : StackEffect) (h : a.thenEff b = some r) :
    r.sIn = specComposeIn a b ∧ r.sNet = specComposeNet a b ∧
      r.sMax = specComposePeak a b :=
  thenEff_spec h

theorem then_returns_spec_components_witness :
    (StackEffect.mk2 1 1).thenEff (StackEffect.mk2 2 2) = some ⟨2, 0, 2⟩ ∧
    ((⟨2, 0, 2⟩ : StackEffect).sIn = specComposeIn (StackEffect.mk2 1 1) (StackEffect.mk2 2 2) ∧
      (⟨2, 0, 2⟩ : StackEffect).sNet = specComposeNet (StackEffect.mk2 1 1) (StackEffect.mk2 2 2) ∧
      (⟨2, 0, 2⟩ : StackEffect).sMax = specComposePeak (StackEffect.mk2 1 1) (StackEffect.mk2 2 2)) :=
  ⟨by decide,
   then_returns_spec_components (StackEffect.mk2 1 1) (StackEffect.mk2 2 2) ⟨2, 0, 2⟩ (by decide)⟩

/-- Claim C2 counterexample: for `a = (2, net 0, peak 2)` and
`b = (0, net 0, peak 5)` (which satisfy `can_merge`), `merge(a, b)` returns
peak 2, not the maximum of the two peaks (5): the claimed peak formula is
false for the code. -/
theorem merge_peak_counterexample :
    (StackEffect.mk3 2 2 2).canMerge (StackEffect.mk3 0 0 5) ∧
    ((StackEffect.mk3 2 2 2).merge (StackEffect.mk3 0 0 5)).sMax = 2 ∧
    specMergePeak (StackEffect.mk3 2 2 2) (StackEffect.mk3 0 0 5) = 5 ∧
    ((StackEffect.mk3 2 2 2).merge (StackEffect.mk3 0 0 5)).sMax ≠
      specMergePeak (StackEffect.mk3 2 2 2) (StackEffect.mk3 0 0 5) := by
  decide

/-- Claim C2 (amended): for stack effects with equal net, `merge(a, b)`
returns whichever operand has the larger input (the first on ties); hence its
input is the maximum of the two inputs and its net is the common net, but its
peak is the peak of the chosen operand, not the maximum of the two peaks. -/
theorem merge_returns_larger_input (a b : StackEffect) (h : a.canMerge b) :
    (a.merge b).sIn = max a.sIn b.sIn ∧ (a.merge b).sNet = a.sNet ∧
      (b.sIn ≤ a.sIn → a.merge b = a) ∧ (a.sIn < b.sIn → a.merge b = b) := by
  unfold StackEffect.canMerge StackEffect.net at h
  unfold StackEffect.merge StackEffect.input
  split_ifs with hc
  · exact ⟨by omega, rfl, fun _ => rfl, fun hlt => by omega⟩
  · exact ⟨by omega, by omega, fun hle => by omega, fun _ => rfl⟩

theorem merge_returns_larger_input_witness :
    ((StackEffect.mk3 3 3 4).merge (StackEffect.mk3 1 1 2)).sIn =
        max (StackEffect.mk3 3 3 4).sIn (StackEffect.mk3 1 1 2).sIn ∧
      ((StackEffect.mk3 3 3 4).merge (StackEffect.mk3 1 1 2)).sNet = (StackEffect.mk3 3 3 4).sNet ∧
      ((StackEffect.mk3 1 1 2).sIn ≤ (StackEffect.mk3 3 3 4).sIn →
        (StackEffect.mk3 3 3 4).merge (StackEffect.mk3 1 1 2) = StackEffect.mk3 3 3 4) ∧
      ((StackEffect.mk3 3 3 4).sIn < (StackEffect.mk3 1 1 2).sIn →
        (StackEffect.mk3 3 3 4).merge (StackEffect.mk3 1 1 2) = StackEffect.mk3 1 1 2) :=
  merge_returns_larger_input (StackEffect.mk3 3 3 4) (StackEffect.mk3 1 1 2) (by decide)

/-- Claim C3 counterexample: `a = (1, net 0, peak 3)` and
`b = (1, net 0, peak 7)` satisfy `can_merge`, but `merge(a, b) = a` while
`merge(b, a) = b`: merge is not commutative when the inputs are equal and the
effects differ. -/
theorem merge_not_commutative_counterexample :
    (StackEffect.mk3 1 1 3).canMerge (StackEffect.mk3 1 1 7) ∧
    (StackEffect.mk3 1 1 3).merge (StackEffect.mk3 1 1 7) ≠
      (StackEffect.mk3 1 1 7).merge (StackEffect.mk3 1 1 3) := by
  decide

/-- Claim C3 (amended): for stack effects with equal net, merge is idempotent,
and commutative whenever the two inputs differ; with equal inputs merge
returns its first argument, so the two orders can differ. -/
theorem merge_idempotent_comm_on_distinct_inputs (a b : StackEffect) (h : a.canMerge b) :
    a.merge a = a ∧ (a.sIn ≠ b.sIn → a.merge b = b.merge a) := by
  constructor
  · unfold StackEffect.merge
    split_ifs with hc
    · rfl
    · exact absurd le_rfl hc
  · intro hne
    unfold StackEffect.merge StackEffect.input
    split_ifs with h1 h2 h2
    · exact absurd (le_antisymm h2 h1) hne
    · rfl
    · rfl
    · omega

theorem merge_idempotent_comm_witness :
    (StackEffect.mk3 2 2 2).merge (StackEffect.mk3 2 2 2) = StackEffect.mk3 2 2 2 ∧
      ((StackEffect.mk3 2 2 2).sIn ≠ (StackEffect.mk3 0 0 5).sIn →
        (StackEffect.mk3 2 2 2).merge (StackEffect.mk3 0 0 5) =
          (StackEffect.mk3 0 0 5).merge (StackEffect.mk3 2 2 2)) :=
  merge_idempotent_comm_on_distinct_inputs (StackEffect.mk3 2 2 2) (StackEffect.mk3 0 0 5)
    (by decide)

/-- Claim C4 counterexample: the public three-argument constructor
`StackEffect(1, 1, 0)` produces peak 0 < in 1, violating
`peak >= max(in, in + net)`. -/
theorem constructor_inv_counterexample : ¬ (StackEffect.mk3 1 1 0).Inv := by
  decide

/-- Claim C4 (amended): the default constructor, the two-argument constructor
whenever `output - input` fits in `int8_t`, and every successful
`StackEffect::then` on operands satisfying the invariant produce values with
`peak >= in` and `peak >= in + net`; the three-argument constructor accepts an
arbitrary peak and need not. -/
theorem inv_established_and_preserved :
    StackEffect.mk0.Inv ∧
      (∀ i o : Int, 0 ≤ i → i ≤ 255 → 0 ≤ o → o ≤ 255 → -128 ≤ o - i → o - i ≤ 127 →
        (StackEffect.mk2 i o).Inv) ∧
      (∀ a b r : StackEffect, a.Inv → b.Inv → a.thenEff b = some r → r.Inv) := by
  refine ⟨by decide, ?_, fun a b r hia hib h => thenEff_preserves_inv hia hib h⟩
  intro i o hi0 hi1 ho0 ho1 hd0 hd1
  unfold StackEffect.mk2 StackEffect.Inv toU8 toI8 toU16
  constructor
  · simp only
    omega
  · simp only
    omega

theorem inv_established_and_preserved_witness :
    (StackEffect.mk2 1 2).Inv ∧ StackEffect.Inv ⟨1, 1, 2⟩ :=
  ⟨inv_established_and_preserved.2.1 1 2 (by decide) (by decide) (by decide) (by decide)
      (by decide) (by decide),
    inv_established_and_preserved.2.2 StackEffect.mk0 (StackEffect.mk2 1 2) ⟨1, 1, 2⟩
      (by decide) (by decide) (by decide)⟩

/-- Claim C5: composition is associative; whenever all four compositions
succeed, `then(then(a, b), c)` and `then(a, then(b, c))` agree on
`(in, net, peak)`. -/
theorem then_associative (a b c ab bc r1 r2 : StackEffect)
    (h1 : a.thenEff b = some ab) (h2 : ab.thenEff c = some r1)
    (h3 : b.thenEff c = some bc) (h4 : a.thenEff bc = some r2) : r1 = r2 :=
  thenEff_assoc_fields h1 h2 h3 h4

theorem then_associative_witness : (⟨2, 1, 3⟩ : StackEffect) = ⟨2, 1, 3⟩ :=
  then_associative (StackEffect.mk2 1 1) (StackEffect.mk2 2 2) (StackEffect.mk2 1 2)
    ⟨2, 0, 2⟩ ⟨2, 1, 3⟩ ⟨2, 1, 3⟩ ⟨2, 1, 3⟩
    (by decide) (by decide) (by decide) (by decide)

/-- Claim C6: for representable stack effects, `StackEffect::then` fails with
the overflow error exactly when some component of the mathematically computed
result is outside its representable range (`in` capped at 255, `peak` at
65535, `net` within `int8_t`); otherwise it returns normally. -/
theorem then_overflow_iff (a b : StackEffect) (ha : a.WF) (hb : b.WF) :
    a.thenEff b = none ↔ composeOverflows a b :=
  thenEff_none_iff b ha

theorem then_overflow_iff_witness :
    ((StackEffect.mk2 0 100).thenEff (StackEffect.mk2 0 100) = none ↔
      composeOverflows (StackEffect.mk2 0 100) (StackEffect.mk2 0 100)) ∧
      (StackEffect.mk2 0 100).thenEff (StackEffect.mk2 0 100) = none :=
  ⟨then_overflow_iff (StackEffect.mk2 0 100) (StackEffect.mk2 0 100) (by decide) (by decide),
    by decide⟩

/-- Claim C7: every compiled word's instruction sequence is terminated by a
RETURN cell, appended automatically by the interpreted-word constructor
(tails.cc:35-51) and by `Compiler::finish`, regardless of the word list
supplied. -/
theorem compiled_words_end_in_return :
    (∀ ws : List TWordRef, (interpInstrs ws).getLast? = some (Instr.native ("RETURN"))) ∧
      (∀ prog : List Cell, (finishProg prog).getLast? = some Cell.RET) := by
  constructor
  · intro ws
    unfold interpInstrs
    simp
  · intro prog
    unfold finishProg
    simp

/-- The compiled form of `"1 IF 123 ELSE 666 THEN"`. -/
def prog123T : List Cell :=
  [Cell.LIT, Cell.num 1, Cell.ZB, Cell.num 4, Cell.LIT, Cell.num 123,
   Cell.BR, Cell.num 2, Cell.LIT, Cell.num 666, Cell.RET]

/-- The compiled form of `"0 IF 123 ELSE 666 THEN"`. -/
def prog666T : List Cell :=
  [Cell.LIT, Cell.num 0, Cell.ZB, Cell.num 4, Cell.LIT, Cell.num 123,
   Cell.BR, Cell.num 2, Cell.LIT, Cell.num 666, Cell.RET]

/-- Claim C8: parsing and running `"1 IF 123 ELSE 666 THEN"` leaves 123 on
top of the stack, `"0 IF 123 ELSE 666 THEN"` leaves 666, and both verify
with the same net stack effect (0, 1) (the verified effect is
`(in 0, net +1, peak 1)`, i.e. 0 inputs and 1 output, for both). -/
theorem ifelse_programs :
    compileSource ("1 IF 123 ELSE 666 THEN") = Except.ok prog123T ∧
      compileSource ("0 IF 123 ELSE 666 THEN") = Except.ok prog666T ∧
      run 32 prog123T 0 [] = some [123] ∧
      run 32 prog666T 0 [] = some [666] ∧
      verify prog123T = Except.ok ⟨0, 1, 1⟩ ∧
      verify prog666T = Except.ok ⟨0, 1, 1⟩ :=
  ⟨rfl, rfl, rfl, rfl, rfl, rfl⟩

/-- Claim C9: `operator==` on `Word` is decided solely by the instruction
field: it is true exactly when the `_instr.native` cells agree, and in
particular two words with the same instruction cell but different names,
effects and flags compare equal. -/
theorem word_eq_by_instruction_only :
    (∀ a b : Word, wordEq a b = true ↔ a.instr.native = b.instr.native) ∧
      (∀ (i : Nat) (n1 n2 : Option String) (e1 e2 : StackEffect) (f1 f2 : Nat),
        wordEq ⟨⟨i⟩, n1, e1, f1⟩ ⟨⟨i⟩, n2, e2, f2⟩ = true) := by
  constructor
  · intro a b
    unfold wordEq
    exact beq_iff_eq
  · intro i n1 n2 e1 e2 f1 f2
    unfold wordEq
    exact beq_self_eq_true i

/-- Claim C10: `Compiler::setStackEffect(f)` records the declared effect and
sets the max-inputs ceiling to `f.input()`, overwriting any value previously
set by `setMaxInputs`. -/
theorem setStackEffect_overwrites_maxInputs :
    ∀ (c : Compiler) (f : StackEffect) (k : Nat),
      ((c.setMaxInputs k).setStackEffect f).maxInputs = f.input.toNat ∧
        (c.setStackEffect f).maxInputs = f.input.toNat ∧
        (c.setStackEffect f).effect = some f :=
  fun _ _ _ => ⟨rfl, rfl, rfl⟩

end Tails
